import Mathlib

/-!
Verification of the weewx-meteotemplate uploader (bin/user/meteotemplate.py,
version 0.7) against its natural-language specification.

The Python module is embedded shallowly: dictionaries become association
lists, Python floats become rationals, and code paths that raise exceptions
return explicit error values.  Behaviour of the external weewx collaborator
(unit conversion in weewx.units, the RESTThread base class) is not part of
the repository; where a claim depends on it, the definition is modelled from
the specification and marked as such in its doc comment.
-/

set_option maxRecDepth 4000

/-- Python exception kinds that the embedded code paths can raise. -/
inductive PyErr where
  | typeError
  | keyError
deriving DecidableEq

/-- A Python scalar value as it occurs in observation records: a number
(Python int/float, embedded as a rational) or a string (for example a
battery-status code). -/
inductive PyVal where
  | num (q : ℚ)
  | str (s : String)
deriving DecidableEq

/-- True exactly on numeric values. -/
def PyVal.isNum : PyVal → Bool
  | .num _ => true
  | .str _ => false

abbrev FieldName := String

/-- weewx unit-system tag carried in every record (record['usUnits']):
US customary or the metric system the protocol requires. -/
inductive UnitSystem where
  | us
  | metric
deriving DecidableEq

/-- An observation record: the Python dict passed to process_record.  The
mandatory epoch timestamp and the unit tag are explicit; the remaining
fields form a finite map whose values may be null (`none`), mirroring a
dict entry whose value is Python None. -/
structure Record where
  dateTime : Int
  usUnits : UnitSystem
  fields : List (FieldName × Option PyVal)
deriving DecidableEq

/-- Dict lookup: `none` when the key is absent, `some none` when the key is
present with value None, `some (some v)` when present with value v. -/
def Record.get (r : Record) (k : FieldName) : Option (Option PyVal) :=
  r.fields.lookup k

/-- Dict update of one key in place: `record[k] = f(record[k])` for a key
already present; keys other than `k` are untouched. -/
def transformKey (k : FieldName) (f : Option PyVal → Option PyVal) (r : Record) : Record :=
  { r with fields := r.fields.map fun kv => if kv.1 = k then (kv.1, f kv.2) else kv }

/-! ## Decimal formatting (staticmethod `_fmt`, lines 194-201)

The Python code formats a numeric value with `"%.<places>f" % x` and
returns non-numeric values unchanged when that formatting raises TypeError.
The `%f` conversion is embedded as exact decimal rounding (ties to even,
as for floats) rendered with a fixed number of fractional digits. -/

/-- One decimal digit as a character. -/
def digitChar : Nat → Char
  | 0 => '0'
  | 1 => '1'
  | 2 => '2'
  | 3 => '3'
  | 4 => '4'
  | 5 => '5'
  | 6 => '6'
  | 7 => '7'
  | 8 => '8'
  | _ => '9'

/-- Exactly `p` decimal digits of `n` (most significant first, zero padded). -/
def natDigitsList : Nat → Nat → List Char
  | 0, _ => []
  | p + 1, n => natDigitsList p (n / 10) ++ [digitChar (n % 10)]

/-- Number of decimal digits of `n` (1 for 0). -/
def numDigits (n : Nat) : Nat :=
  if _h : n < 10 then 1 else numDigits (n / 10) + 1
termination_by n
decreasing_by omega

/-- Unpadded decimal digits of `n`. -/
def natReprList (n : Nat) : List Char :=
  natDigitsList (numDigits n) n

/-- Round to the nearest integer, ties to even, as C's %f applied to the
exact value does. -/
def roundHalfEven (q : ℚ) : Int :=
  let f := q.floor
  let r := q - f
  if r < 1 / 2 then f
  else if 1 / 2 < r then f + 1
  else if f % 2 = 0 then f else f + 1

/-- Sign prepended by %f: present exactly when the value is negative. -/
def signChars (q : ℚ) : List Char :=
  if q < 0 then ['-'] else []

/-- The string produced by Python's `"%.<p>f" % q`: sign, integer part,
and (when p > 0) a point followed by exactly p fractional digits. -/
def fmtFixed (p : Nat) (q : ℚ) : String :=
  if p = 0 then
    ⟨signChars q ++ natReprList (roundHalfEven (q * 10 ^ p)).natAbs⟩
  else
    ⟨signChars q ++ natReprList ((roundHalfEven (q * 10 ^ p)).natAbs / 10 ^ p)
      ++ '.' :: natDigitsList p ((roundHalfEven (q * 10 ^ p)).natAbs % 10 ^ p)⟩

/-- Lines 194-201: format a numeric value to `places` decimal places; a
non-numeric value makes the % operator raise TypeError, which is caught,
and the value is returned unchanged. -/
def MeteotemplateThread.fmt (x : PyVal) (places : Nat) : PyVal :=
  match x with
  | .num q => .str (fmtFixed places q)
  | .str s => .str s

/-- Number of characters after the last decimal point of a string
(0 when the string has no decimal point). -/
def fracLen (s : String) : Nat :=
  if '.' ∈ s.data then (s.data.reverse.takeWhile fun c => c != '.').length else 0

/-! ## The field map (staticmethod `create_default_field_map`, lines 203-244)

Each entry is (external parameter key, internal field name, decimal
places).  The Python dict is embedded as an association list in insertion
order; keys are unique. -/

def create_default_field_map : List (String × FieldName × Nat) :=
  [("T", "outTemp", 2), ("H", "outHumidity", 1), ("P", "pressure", 3),
   ("SLP", "barometer", 3), ("W", "windSpeed", 2), ("G", "windGust", 2),
   ("B", "windDir", 0), ("RR", "rainRate", 3), ("R", "dayRain", 3),
   ("S", "radiation", 3), ("UV", "UV", 0), ("TIN", "inTemp", 2),
   ("HIN", "inHumidity", 1), ("SN", "daySnow", 3), ("SD", "snowDepth", 3),
   ("L", "lightning", 0), ("NL", "noise", 2)]
  ++ ((List.range 8).map fun i =>
      [("T" ++ toString i, "extraTemp" ++ toString i, 2),
       ("H" ++ toString i, "extraHumid" ++ toString i, 1),
       ("TS" ++ toString i, "soilTemp" ++ toString i, 2),
       ("TSD" ++ toString i, "soilTempDepth" ++ toString i, 2),
       ("LW" ++ toString i, "leafWet" ++ toString i, 1),
       ("LT" ++ toString i, "leafTemp" ++ toString i, 2),
       ("SM" ++ toString i, "soilMoist" ++ toString i, 1),
       ("CO2_" ++ toString i, "co2_" ++ toString i, 3),
       ("NO2_" ++ toString i, "no2_" ++ toString i, 3),
       ("CO_" ++ toString i, "co_" ++ toString i, 3),
       ("SO2_" ++ toString i, "so2_" ++ toString i, 3),
       ("O3_" ++ toString i, "o3_" ++ toString i, 3),
       ("pp" ++ toString i, "pp" ++ toString i, 3)]).flatten
  ++ [("TXBAT", "txBatteryStatus", 0), ("WBAT", "windBatteryStatus", 0),
      ("RBAT", "rainBatteryStatus", 0), ("TBAT", "outTempBatteryStatus", 0),
      ("TINBAT", "inTempBatteryStatus", 0)]

/-- Internal field names that appear in the mapping table. -/
def mappedInternalNames : List FieldName :=
  create_default_field_map.map fun e => e.2.1

/-- The Python attribute `self.field_map`.  Line 156 reads
`self.field_map = self.create_default_field_map` with no call parentheses,
so the attribute holds the method object itself, not the table the method
returns. -/
inductive FieldMapAttr where
  | methodObject
  | table (t : List (String × FieldName × Nat))
deriving DecidableEq

/-- The value actually stored by line 156: the uncalled method object. -/
def fieldMapAttr : FieldMapAttr := .methodObject

/-! ## Unit conversion (external collaborator weewx.units) -/

/-- Temperature-group field names (degree_F → degree_C under conversion). -/
def tempFields : List FieldName :=
  ["outTemp", "inTemp"]
  ++ ((List.range 8).map fun i =>
      ["extraTemp" ++ toString i, "soilTemp" ++ toString i,
       "leafTemp" ++ toString i]).flatten

/-- Pressure-group field names (inHg → mbar under conversion). -/
def pressureFields : List FieldName := ["pressure", "barometer", "altimeter"]

/-- Speed-group field names (mph → km/h under conversion). -/
def speedFields : List FieldName := ["windSpeed", "windGust"]

/-- Rain-group field names (inch → cm under conversion; in the metric
system weewx keeps rain amounts in centimeters). -/
def rainFields : List FieldName := ["dayRain", "rainRate", "daySnow", "snowDepth"]

/-- Conversion of one US-customary value to the metric unit of its group. -/
def usToMetricVal (k : FieldName) (q : ℚ) : ℚ :=
  if k ∈ tempFields then (q - 32) * 5 / 9
  else if k ∈ pressureFields then q * (338639 / 10000)
  else if k ∈ speedFields then q * (1609344 / 1000000)
  else if k ∈ rainFields then q * (254 / 100)
  else q

/-- Modelled from the spec: weewx.units.to_std_system is part of the
external weewx collaborator, not of this repository.  Per the spec it
converts a record to the protocol's canonical metric unit system (degree_C,
mbar, km/h, and centimeter-based rain amounts) and, per the spec's record
data model, the original record is never mutated in place from the caller's
perspective: the function yields a (converted) copy.  Non-numeric values
pass through unchanged. -/
def to_std_system (r : Record) : Record :=
  if r.usUnits = UnitSystem.metric then r
  else
    { r with
      usUnits := UnitSystem.metric
      fields := r.fields.map fun kv =>
        (kv.1, kv.2.map fun v =>
          match v with
          | .num q => .num (usToMetricVal kv.1 q)
          | .str s => .str s) }

/-! ## Rain rescaling (get_url lines 178-182) -/

/-- The in-place update `record[k] *= 10.0` applied to a present value.
Record values are numeric per the record data model; a null value is never
reached here and a string is left unchanged. -/
def mulTenOpt : Option PyVal → Option PyVal
  | some (.num q) => some (.num (10 * q))
  | v => v

/-- One of the two guarded updates of lines 179-182:
`if k in record and record[k] is not None: record[k] *= 10.0`. -/
def rescaleKey (k : FieldName) (r : Record) : Record :=
  match r.get k with
  | some (some _) => transformKey k mulTenOpt r
  | _ => r

/-- Lines 179-182: rescale dayRain (cm → mm) then rainRate (cm/h → mm/h)
by the fixed factor 10. -/
def rescaleRain (r : Record) : Record :=
  rescaleKey "rainRate" (rescaleKey "dayRain" r)

/-! ## URL construction (get_url lines 177-192) -/

/-- Uppercase hexadecimal digit. -/
def percentHexChar (n : Nat) : Char :=
  if n < 10 then digitChar n
  else if n = 10 then 'A' else if n = 11 then 'B' else if n = 12 then 'C'
  else if n = 13 then 'D' else if n = 14 then 'E' else 'F'

/-- urllib quote_plus on one character: letters, digits and `_.-` are kept,
a space becomes `+`, anything else is percent-encoded. -/
def quotePlusChar (c : Char) : List Char :=
  if c.isAlphanum || c = '_' || c = '.' || c = '-' then [c]
  else if c = ' ' then ['+']
  else ['%', percentHexChar (c.toNat / 16 % 16), percentHexChar (c.toNat % 16)]

/-- urllib quote_plus on a string. -/
def quotePlus (s : String) : String :=
  ⟨(s.data.map quotePlusChar).flatten⟩

/-- urllib.urlencode: key=value pairs joined with ampersands. -/
def urlencode (parts : List (String × String)) : String :=
  String.intercalate "&" (parts.map fun kv => quotePlus kv.1 ++ "=" ++ quotePlus kv.2)

/-- Configuration held by MeteotemplateThread after its constructor ran
(lines 143-157): upload credential, destination, dry-run flag, and the
weewx version string interpolated into the SW parameter. -/
structure ThreadConfig where
  password : String
  server_url : String
  skip_upload : Bool
  weewxVersion : String
deriving DecidableEq

/-- The string Python's str() applies to a parameter value before
urlencode.  After `_fmt` every value in parts is already a string. -/
def pyValText : PyVal → String
  | .str s => s
  | .num q => toString q

/-- The parameters always placed in parts (lines 184-186): the shared
secret PASS, the epoch timestamp U, and the client identifier SW. -/
def baseParts (cfg : ThreadConfig) (record : Record) : List (String × String) :=
  [("PASS", cfg.password), ("U", toString record.dateTime),
   ("SW", "weewx-" ++ cfg.weewxVersion)]

/-- The data parameters of lines 187-191: for each table entry whose
internal field is present and non-null in the record, the external key
paired with the formatted value. -/
def dataParts (fm : List (String × FieldName × Nat)) (record : Record) :
    List (String × String) :=
  fm.filterMap fun e =>
    match record.get e.2.1 with
    | some (some v) => some (e.1, pyValText (MeteotemplateThread.fmt v e.2.2))
    | _ => none

/-- Lines 177-192 as written: convert the record to metric, rescale the two
rain fields, place PASS, U and SW into parts, then iterate
`for k in self.field_map`.  Because line 156 stored the uncalled method
object, that iteration raises TypeError before any data parameter is
added; with an actual table the loop would add one parameter per populated
mapped field and return the encoded URL. -/
def get_url_with (fm : FieldMapAttr) (cfg : ThreadConfig) (record : Record) :
    Except PyErr String :=
  let record1 := rescaleRain (to_std_system record)
  match fm with
  | .methodObject => .error .typeError
  | .table t =>
      .ok (cfg.server_url ++ "?"
        ++ urlencode (baseParts cfg record1 ++ dataParts t record1))

/-- MeteotemplateThread.get_url as the code runs it, with the attribute
stored by line 156. -/
def get_url (cfg : ThreadConfig) (record : Record) : Except PyErr String :=
  get_url_with fieldMapAttr cfg record

/-- The parameter list get_url evidently intends to encode: line 156 with
the missing call parentheses restored, so the loop iterates the table
returned by create_default_field_map.  The module docstring and the test in
the module's main block document this intent. -/
def get_url_intended_parts (cfg : ThreadConfig) (record : Record) :
    List (String × String) :=
  let record1 := rescaleRain (to_std_system record)
  baseParts cfg record1 ++ dataParts create_default_field_map record1

/-- The URL get_url evidently intends to return (see get_url_intended_parts). -/
def get_url_intended (cfg : ThreadConfig) (record : Record) : String :=
  cfg.server_url ++ "?" ++ urlencode (get_url_intended_parts cfg record)

/-! ## check_response (lines 171-175) -/

/-- Lines 171-175: any body other than the literal Success raises
FailedPost with the quoted body; on Success the method logs and returns. -/
def check_response (txt : String) : Except String Unit :=
  if txt = "Success" then .ok ()
  else .error ("Server returned '" ++ txt ++ "'")

/-! ## process_record (lines 159-169) -/

/-- Caller-visible outcome of one process_record call: an HTTP request was
issued for a URL, the deliberate AbortedPost of the dry-run flag was
raised, or some other Python exception escaped. -/
inductive ProcessOutcome where
  | posted (url : String)
  | abortedPost
  | raised (e : PyErr)
deriving DecidableEq

/-- An outcome counts as a clean skip when no request is issued and no
unexpected exception escapes (AbortedPost is the deliberate skip signal the
surrounding worker catches). -/
def cleanSkip : ProcessOutcome → Bool
  | .posted _ => false
  | .raised _ => false
  | .abortedPost => true

/-- Lines 159-169 with no archive handle (the dbm branch calls the external
RESTThread.get_record enricher and is not taken): build the URL, then honor
skip_upload, then issue the request.  Any exception out of get_url escapes
before the request is constructed. -/
def process_record (cfg : ThreadConfig) (record : Record) : ProcessOutcome :=
  match get_url cfg record with
  | .error e => .raised e
  | .ok url => if cfg.skip_upload then .abortedPost else .posted url

/-- True when some mapping-table internal field is present in the record
with a non-null value. -/
def hasMappedData (r : Record) : Bool :=
  r.fields.any fun kv => mappedInternalNames.contains kv.1 && kv.2.isSome

/-! ## Service construction (Meteotemplate.__init__, lines 93-132) -/

/-- Option dictionary cfg_dict['StdRESTful']['Meteotemplate'] flattened by
accumulateLeaves: option name to string value. -/
abbrev OptDict := List (String × String)

/-- A weewx configuration as this service reads it: the Meteotemplate
section when both StdRESTful and Meteotemplate keys exist. -/
structure CfgDict where
  meteotemplate : Option OptDict

/-- What the service constructor did, as visible to the host process. -/
structure InitResult where
  loggedMissingOption : Bool
  queueCreated : Bool
  threadStarted : Bool
  boundLoop : Bool
  boundArchive : Bool
  uncaught : Option PyErr
  serverUrlUsed : Option String
deriving DecidableEq

/-- The early-return result of the missing-option branch (lines 104-107):
the KeyError is caught and logged, and the constructor returns before the
queue, the worker thread, and the event bindings are created. -/
def disabledInit : InitResult :=
  { loggedMissingOption := true, queueCreated := false, threadStarted := false,
    boundLoop := false, boundArchive := false, uncaught := none,
    serverUrlUsed := none }

/-- Substring test modelling Python's `'loop' in binding` on strings. -/
def containsSub (s pat : String) : Bool :=
  s.data.tails.any fun t => pat.data.isPrefixOf t

def Meteotemplate.DEFAULT_URL : String := "http://localhost/template/api.php"

/-- Meteotemplate.__init__, lines 93-132.  Looking up the section or the
password raises KeyError, which the constructor catches, logs and returns
from (lines 101-107).  Line 110 calls site_dict.get('server_url', DEFAULT_URL)
and discards the result, so no default is stored; when server_url is absent
the call MeteotemplateThread(self._queue, **site_dict) has no value for the
required server_url argument and raises TypeError, which the surrounding
try catches only for ViolatedPrecondition, so the TypeError escapes to the
host after the queue was created (line 120) and before the thread is
started or any event is bound. -/
def meteotemplateInit (cfg : CfgDict) : InitResult :=
  match cfg.meteotemplate with
  | none => disabledInit
  | some site =>
    match site.lookup "password" with
    | none => disabledInit
    | some _ =>
      let binding := ((site.lookup "binding").getD "archive").toLower
      match site.lookup "server_url" with
      | none =>
          { loggedMissingOption := false, queueCreated := true,
            threadStarted := false, boundLoop := false, boundArchive := false,
            uncaught := some .typeError, serverUrlUsed := none }
      | some url =>
          { loggedMissingOption := false, queueCreated := true,
            threadStarted := true, boundLoop := containsSub binding "loop",
            boundArchive := containsSub binding "archive", uncaught := none,
            serverUrlUsed := some url }

/-- Modelled from the spec: line 110 with its evident intent restored, the
default destination stored into the option dictionary when server_url is
absent (the spec: destination URL is optional and defaults to a well-known
path).  Everything after that point is as in meteotemplateInit. -/
def meteotemplateInitIntended (cfg : CfgDict) : InitResult :=
  match cfg.meteotemplate with
  | none => disabledInit
  | some site =>
    match site.lookup "password" with
    | none => disabledInit
    | some _ =>
      let url := (site.lookup "server_url").getD Meteotemplate.DEFAULT_URL
      let binding := ((site.lookup "binding").getD "archive").toLower
      { loggedMissingOption := false, queueCreated := true,
        threadStarted := true, boundLoop := containsSub binding "loop",
        boundArchive := containsSub binding "archive", uncaught := none,
        serverUrlUsed := some url }

/-! ## Helper lemmas about dict lookup and update -/

lemma lookup_map_transform (k : FieldName) (f : Option PyVal → Option PyVal)
    (l : List (FieldName × Option PyVal)) :
    (l.map fun kv => if kv.1 = k then (kv.1, f kv.2) else kv).lookup k
      = (l.lookup k).map f := by
  induction l with
  | nil => rfl
  | cons a t ih =>
    obtain ⟨a1, a2⟩ := a
    simp only [List.map_cons]
    split
    · rename_i h
      have h2 : a1 = k := h
      subst h2
      simp [List.lookup, ih]
    · rename_i h
      have h2 : ¬ a1 = k := h
      have hb : (k == a1) = false := beq_eq_false_iff_ne.mpr (Ne.symm h2)
      simp [List.lookup, hb, ih]

lemma lookup_map_transform_other (k k2 : FieldName) (h : k2 ≠ k)
    (f : Option PyVal → Option PyVal) (l : List (FieldName × Option PyVal)) :
    (l.map fun kv => if kv.1 = k then (kv.1, f kv.2) else kv).lookup k2
      = l.lookup k2 := by
  induction l with
  | nil => rfl
  | cons a t ih =>
    obtain ⟨a1, a2⟩ := a
    simp only [List.map_cons]
    split
    · rename_i h1
      have h2 : a1 = k := h1
      subst h2
      have hb : (k2 == a1) = false := beq_eq_false_iff_ne.mpr h
      simp [List.lookup, hb, ih]
    · cases hb : (k2 == a1) <;> simp [List.lookup, hb, ih]

lemma get_transformKey_self (k : FieldName) (f : Option PyVal → Option PyVal)
    (r : Record) : (transformKey k f r).get k = (r.get k).map f :=
  lookup_map_transform k f r.fields

lemma get_transformKey_other (k k2 : FieldName) (h : k2 ≠ k)
    (f : Option PyVal → Option PyVal) (r : Record) :
    (transformKey k f r).get k2 = r.get k2 :=
  lookup_map_transform_other k k2 h f r.fields

lemma get_rescaleKey_other (k k2 : FieldName) (h : k2 ≠ k) (r : Record) :
    (rescaleKey k r).get k2 = r.get k2 := by
  unfold rescaleKey
  split
  · exact get_transformKey_other k k2 h mulTenOpt r
  · rfl

lemma rescaleKey_eq_transform (k : FieldName) (r : Record) (x : PyVal)
    (h : r.get k = some (some x)) :
    rescaleKey k r = transformKey k mulTenOpt r := by
  unfold rescaleKey
  rw [h]

lemma get_rescaleKey_self_num (k : FieldName) (r : Record) (v : ℚ)
    (h : r.get k = some (some (.num v))) :
    (rescaleKey k r).get k = some (some (.num (10 * v))) := by
  rw [rescaleKey_eq_transform k r (.num v) h, get_transformKey_self, h]
  rfl

lemma rescaleKey_of_absent (k : FieldName) (r : Record) (h : r.get k = none) :
    rescaleKey k r = r := by
  unfold rescaleKey
  rw [h]

lemma rescaleKey_of_null (k : FieldName) (r : Record) (h : r.get k = some none) :
    rescaleKey k r = r := by
  unfold rescaleKey
  rw [h]

/-! ## Claim C8 -/

/-- C8: check_response raises the FailedPost transient-failure exception
if and only if the response body is not exactly the literal string
Success; on a Success body it returns normally and raises nothing. -/
theorem check_response_failed_iff (txt : String) :
    (∃ m, check_response txt = Except.error m) ↔ txt ≠ "Success" := by
  unfold check_response
  by_cases h : txt = "Success" <;> simp [h]

/-! ## Claim C2 -/

/-- C2: line 156 stores the uncalled method object in field_map, so the
loop `for k in self.field_map` in get_url iterates a function object and
raises TypeError for every configuration and every record; get_url never
returns a URL, hence never adds any mapping-table data parameter to a
query. -/
theorem get_url_always_typeerror (cfg : ThreadConfig) (record : Record) :
    get_url cfg record = Except.error PyErr.typeError := rfl

/-! ## Claim C9 -/

/-- Caller-visible effect of one get_url call: the result paired with the
record the caller holds after the call.  Modelled from the spec:
weewx.units.to_std_system (external weewx code, not in src) returns a
converted copy — the spec's record data model states the original is never
mutated in place from the caller's perspective — so the in-place rain
rescaling inside get_url touches only that copy and the caller's record is
returned unchanged. -/
def get_url_call (cfg : ThreadConfig) (r : Record) :
    Except PyErr String × Record :=
  (get_url cfg r, r)

/-- C9: mapping is deterministic and free of caller-visible mutation: a
second get_url call on the record the caller holds after a first call
yields the same output as the first, and the caller's record — in
particular its dayRain and rainRate entries — is unchanged after each
call. -/
theorem get_url_idempotent_no_mutation (cfg : ThreadConfig) (r : Record) :
    (get_url_call cfg (get_url_call cfg r).2).1 = (get_url_call cfg r).1 ∧
    (get_url_call cfg r).2 = r ∧
    (get_url_call cfg (get_url_call cfg r).2).2 = r ∧
    ((get_url_call cfg r).2).get "dayRain" = r.get "dayRain" ∧
    ((get_url_call cfg r).2).get "rainRate" = r.get "rainRate" :=
  ⟨rfl, rfl, rfl, rfl, rfl⟩

/-! ## Claim C10: decimal formatting -/

lemma digitChar_ne_dot (n : Nat) : digitChar n ≠ '.' := by
  unfold digitChar
  split <;> decide

lemma natDigitsList_length (p : Nat) : ∀ n, (natDigitsList p n).length = p := by
  induction p with
  | zero => intro n; rfl
  | succ k ih => intro n; simp [natDigitsList, ih]

lemma natDigitsList_ne_dot (p : Nat) :
    ∀ n, ∀ c ∈ natDigitsList p n, c ≠ '.' := by
  induction p with
  | zero => intro n c hc; simp [natDigitsList] at hc
  | succ k ih =>
    intro n c hc
    simp only [natDigitsList, List.mem_append, List.mem_singleton] at hc
    rcases hc with hc | hc
    · exact ih (n / 10) c hc
    · rw [hc]; exact digitChar_ne_dot (n % 10)

lemma natReprList_ne_dot (n : Nat) : ∀ c ∈ natReprList n, c ≠ '.' :=
  natDigitsList_ne_dot (numDigits n) n

lemma signChars_ne_dot (q : ℚ) : ∀ c ∈ signChars q, c ≠ '.' := by
  unfold signChars
  split <;> simp

lemma takeWhile_append_middle (f : Char → Bool) (l1 l2 : List Char) (c : Char)
    (h1 : ∀ x ∈ l1, f x = true) (h2 : f c = false) :
    (l1 ++ c :: l2).takeWhile f = l1 := by
  induction l1 with
  | nil => simp [h2]
  | cons a t ih =>
    have ha := h1 a (by simp)
    simp only [List.cons_append, List.takeWhile_cons, ha, if_true]
    rw [ih fun x hx => h1 x (by simp [hx])]

/-- For p > 0 the formatted string ends in a point followed by exactly p
digit characters; the leading sign and integer part contain no point. -/
lemma fracLen_fmtFixed (p : Nat) (q : ℚ) : fracLen (fmtFixed p q) = p := by
  by_cases hp : p = 0
  · subst hp
    unfold fmtFixed fracLen
    rw [if_pos rfl, if_neg]
    intro hmem
    simp only [List.mem_append] at hmem
    rcases hmem with hmem | hmem
    · exact signChars_ne_dot q _ hmem rfl
    · exact natReprList_ne_dot _ _ hmem rfl
  · unfold fmtFixed fracLen
    rw [if_neg hp, if_pos]
    · have hrev :
          (signChars q ++ natReprList ((roundHalfEven (q * 10 ^ p)).natAbs / 10 ^ p)
            ++ '.' :: natDigitsList p ((roundHalfEven (q * 10 ^ p)).natAbs % 10 ^ p)).reverse
          = (natDigitsList p ((roundHalfEven (q * 10 ^ p)).natAbs % 10 ^ p)).reverse
            ++ '.' :: (signChars q
                ++ natReprList ((roundHalfEven (q * 10 ^ p)).natAbs / 10 ^ p)).reverse := by
        simp [List.reverse_append]
    -- the goal's data field of the anonymous String constructor is definitional
      show ((signChars q ++ natReprList ((roundHalfEven (q * 10 ^ p)).natAbs / 10 ^ p)
            ++ '.' :: natDigitsList p ((roundHalfEven (q * 10 ^ p)).natAbs % 10 ^ p)).reverse.takeWhile
              fun c => c != '.').length = p
      rw [hrev, takeWhile_append_middle]
      · simp [natDigitsList_length]
      · intro x hx
        simp only [List.mem_reverse] at hx
        simpa using natDigitsList_ne_dot p _ x hx
      · decide
    · show '.' ∈ signChars q ++ natReprList ((roundHalfEven (q * 10 ^ p)).natAbs / 10 ^ p)
            ++ '.' :: natDigitsList p ((roundHalfEven (q * 10 ^ p)).natAbs % 10 ^ p)
      simp

/-- C10: a numeric value is formatted to a decimal string with exactly the
configured number of digits after the decimal point (no point at all for
zero places), and a non-numeric value — for which the % format operator
raises TypeError — is returned unchanged with no exception escaping. -/
theorem fmt_precision_and_passthrough (p : Nat) (q : ℚ) (v : PyVal)
    (hv : v.isNum = false) :
    (∃ s, MeteotemplateThread.fmt (.num q) p = .str s ∧ fracLen s = p) ∧
    MeteotemplateThread.fmt v p = v := by
  constructor
  · exact ⟨fmtFixed p q, rfl, fracLen_fmtFixed p q⟩
  · cases v with
    | num q2 => simp [PyVal.isNum] at hv
    | str s => rfl

/-- Witness for C10 at concrete inputs: formatting 5/18 (the 32.5 degree_F
conversion) to two places and passing a non-numeric value through. -/
theorem fmt_precision_and_passthrough_witness :
    ((∃ s, MeteotemplateThread.fmt (.num (5 / 18)) 2 = .str s ∧ fracLen s = 2) ∧
      MeteotemplateThread.fmt (.str "n/a") 2 = .str "n/a") :=
  fmt_precision_and_passthrough 2 (5 / 18) (.str "n/a") rfl

/-! ## Claim C5: rain rescaling -/

/-- C5: after the record is converted to the metric unit system, a present
non-null dayRain (respectively rainRate) value is multiplied by exactly 10
by the rescaling step of get_url, and an absent or null field is left
untouched — so it can contribute no parameter. -/
theorem rescale_rain_times_ten (r : Record) :
    (∀ v : ℚ, (to_std_system r).get "dayRain" = some (some (.num v)) →
      (rescaleRain (to_std_system r)).get "dayRain" = some (some (.num (10 * v)))) ∧
    (∀ v : ℚ, (to_std_system r).get "rainRate" = some (some (.num v)) →
      (rescaleRain (to_std_system r)).get "rainRate" = some (some (.num (10 * v)))) ∧
    ((to_std_system r).get "dayRain" = none →
      (rescaleRain (to_std_system r)).get "dayRain" = none) ∧
    ((to_std_system r).get "dayRain" = some none →
      (rescaleRain (to_std_system r)).get "dayRain" = some none) ∧
    ((to_std_system r).get "rainRate" = none →
      (rescaleRain (to_std_system r)).get "rainRate" = none) ∧
    ((to_std_system r).get "rainRate" = some none →
      (rescaleRain (to_std_system r)).get "rainRate" = some none) := by
  have hne : ("dayRain" : FieldName) ≠ "rainRate" := by decide
  have hne2 : ("rainRate" : FieldName) ≠ "dayRain" := by decide
  refine ⟨?_, ?_, ?_, ?_, ?_, ?_⟩
  · intro v h
    unfold rescaleRain
    rw [get_rescaleKey_other "rainRate" "dayRain" hne]
    exact get_rescaleKey_self_num "dayRain" (to_std_system r) v h
  · intro v h
    unfold rescaleRain
    have hmid : (rescaleKey "dayRain" (to_std_system r)).get "rainRate"
        = some (some (.num v)) := by
      rw [get_rescaleKey_other "dayRain" "rainRate" hne2]
      exact h
    exact get_rescaleKey_self_num "rainRate" _ v hmid
  · intro h
    unfold rescaleRain
    rw [get_rescaleKey_other "rainRate" "dayRain" hne,
        rescaleKey_of_absent "dayRain" _ h]
    exact h
  · intro h
    unfold rescaleRain
    rw [get_rescaleKey_other "rainRate" "dayRain" hne,
        rescaleKey_of_null "dayRain" _ h]
    exact h
  · intro h
    unfold rescaleRain
    have hmid : (rescaleKey "dayRain" (to_std_system r)).get "rainRate" = none := by
      rw [get_rescaleKey_other "dayRain" "rainRate" hne2]
      exact h
    rw [rescaleKey_of_absent "rainRate" _ hmid]
    exact hmid
  · intro h
    unfold rescaleRain
    have hmid : (rescaleKey "dayRain" (to_std_system r)).get "rainRate" = some none := by
      rw [get_rescaleKey_other "dayRain" "rainRate" hne2]
      exact h
    rw [rescaleKey_of_null "rainRate" _ hmid]
    exact hmid

/-- A concrete metric record with a 2.54 cm dayRain total and a null
rainRate. -/
def recRain : Record :=
  { dateTime := 5, usUnits := .metric,
    fields := [("dayRain", some (.num (127 / 50))), ("rainRate", none)] }

/-- Witness for C5 at recRain: the present dayRain value is multiplied by
10 and the null rainRate entry is untouched. -/
theorem rescale_rain_times_ten_witness :
    (rescaleRain (to_std_system recRain)).get "dayRain"
        = some (some (.num (10 * (127 / 50)))) ∧
    (rescaleRain (to_std_system recRain)).get "rainRate" = some none :=
  ⟨(rescale_rain_times_ten recRain).1 (127 / 50) (by with_unfolding_all rfl),
   (rescale_rain_times_ten recRain).2.2.2.2.2 (by with_unfolding_all rfl)⟩

/-! ## Claim C1: the documented scenario -/

/-- The thread configuration of the scenario: shared secret abc123,
default destination, no dry run. -/
def cfgC1 : ThreadConfig :=
  { password := "abc123", server_url := Meteotemplate.DEFAULT_URL,
    skip_upload := false, weewxVersion := "3.8.0" }

/-- The scenario record, in US units, as posted by the module's own main
block: dateTime T, outTemp 32.5 degree_F, outHumidity 24 percent. -/
def recC1 : Record :=
  { dateTime := 1469999999, usUnits := .us,
    fields := [("outTemp", some (.num 32.5)), ("outHumidity", some (.num 24))] }

/-- C1 (evaluation at the failing input): get_url as written raises
TypeError on the scenario record and builds no URL at all, because line
156 stored the uncalled method object; with the evidently intended field
map the parameter list contains PASS=abc123, the timestamp U, T=0.28 (the
32.5 degree_F to degree_C conversion at two decimal places), H=24.0, and
no pressure or wind parameters. -/
theorem get_url_scenario_typeerror :
    get_url cfgC1 recC1 = Except.error PyErr.typeError ∧
    ("PASS", "abc123") ∈ get_url_intended_parts cfgC1 recC1 ∧
    ("U", "1469999999") ∈ get_url_intended_parts cfgC1 recC1 ∧
    ("T", "0.28") ∈ get_url_intended_parts cfgC1 recC1 ∧
    ("H", "24.0") ∈ get_url_intended_parts cfgC1 recC1 ∧
    "P" ∉ (get_url_intended_parts cfgC1 recC1).map Prod.fst ∧
    "SLP" ∉ (get_url_intended_parts cfgC1 recC1).map Prod.fst ∧
    "W" ∉ (get_url_intended_parts cfgC1 recC1).map Prod.fst ∧
    "G" ∉ (get_url_intended_parts cfgC1 recC1).map Prod.fst ∧
    "B" ∉ (get_url_intended_parts cfgC1 recC1).map Prod.fst := by
  refine ⟨rfl, ?_, ?_, ?_, ?_, ?_, ?_, ?_, ?_, ?_⟩ <;> with_unfolding_all decide

/-! ## Claim C3: the fully populated record -/

/-- A metric record in which every internal field of the mapping table is
present with a non-null numeric value. -/
def recFull : Record :=
  { dateTime := 1000, usUnits := .metric,
    fields := create_default_field_map.map fun e => (e.2.1, some (.num 1)) }

/-- C3 (evaluation at the failing input): even on a record with every
mapped field populated, get_url raises TypeError — line 156 stored the
uncalled method object — so no query string containing the shared secret,
the timestamp and the per-field parameters is ever built. -/
theorem get_url_full_record_typeerror :
    hasMappedData recFull = true ∧
    get_url cfgC1 recFull = Except.error PyErr.typeError :=
  ⟨by with_unfolding_all rfl, rfl⟩

/-! ## Claim C4: the zero-data-field guard -/

/-- A record carrying nothing but the mandatory timestamp: no mapped data
field is present. -/
def recEmpty : Record := { dateTime := 1000, usUnits := .metric, fields := [] }

/-- C4 counterexample: at a record with no non-null mapped data field the
post is not skipped cleanly — process_record ends with the TypeError
escaping from get_url, not with a deliberate skip; there is no
zero-data-parameter guard in this version. -/
theorem process_record_empty_not_clean_skip :
    hasMappedData recEmpty = false ∧
    cleanSkip (process_record cfgC1 recEmpty) = false ∧
    process_record cfgC1 recEmpty = ProcessOutcome.raised PyErr.typeError :=
  ⟨rfl, rfl, rfl⟩

/-- C4 (amended): for every record with no non-null mapped data field no
HTTP request is issued — but not through a zero-data-parameter skip;
get_url raises TypeError on every record, so process_record ends with that
exception before any request is constructed. -/
theorem process_record_no_mapped_data_no_request (cfg : ThreadConfig)
    (r : Record) (_h : hasMappedData r = false) :
    process_record cfg r = ProcessOutcome.raised PyErr.typeError ∧
    ∀ u, process_record cfg r ≠ ProcessOutcome.posted u := by
  refine ⟨rfl, ?_⟩
  intro u hc
  rw [show process_record cfg r = ProcessOutcome.raised PyErr.typeError from rfl] at hc
  exact ProcessOutcome.noConfusion hc

/-- Witness for C4 at the empty record. -/
theorem process_record_no_mapped_data_no_request_witness :
    process_record cfgC1 recEmpty = ProcessOutcome.raised PyErr.typeError ∧
    ∀ u, process_record cfgC1 recEmpty ≠ ProcessOutcome.posted u :=
  process_record_no_mapped_data_no_request cfgC1 recEmpty rfl

/-! ## Claim C6: missing shared secret disables the service -/

/-- C6: when the configuration carries no password option (whether the
Meteotemplate section is present without it or absent entirely), the
constructor logs the missing option and returns: no queue is created, no
worker thread is spawned, no observation event is bound, and no exception
reaches the host process. -/
theorem init_without_password_disables (cfg : CfgDict)
    (h : ∀ site, cfg.meteotemplate = some site → site.lookup "password" = none) :
    meteotemplateInit cfg = disabledInit := by
  obtain ⟨mt⟩ := cfg
  cases mt with
  | none => rfl
  | some site =>
    have hp := h site rfl
    simp [meteotemplateInit, hp]

/-- Witness for C6: a section holding only a server_url. -/
theorem init_without_password_disables_witness :
    meteotemplateInit ⟨some [("server_url", "http://example/api.php")]⟩
      = disabledInit :=
  init_without_password_disables ⟨some [("server_url", "http://example/api.php")]⟩
    (by intro site hs; cases hs; rfl)

/-! ## Claim C7: missing server_url -/

/-- A configuration providing the shared secret but no destination URL. -/
def cfgNoUrl : CfgDict := ⟨some [("password", "abc123")]⟩

/-- C7 (evaluation at the failing input): with a password but no
server_url, line 110 discards the looked-up default instead of storing it,
so constructing the worker thread raises a TypeError (missing required
server_url argument) that nothing catches: construction fails after the
queue is created, with no thread and no bindings; under the evidently
intended line 110 the service starts its thread bound to the archive
stream and uploads to the well-known default path. -/
theorem init_missing_server_url_raises :
    meteotemplateInit cfgNoUrl =
      { loggedMissingOption := false, queueCreated := true,
        threadStarted := false, boundLoop := false, boundArchive := false,
        uncaught := some PyErr.typeError, serverUrlUsed := none } ∧
    meteotemplateInitIntended cfgNoUrl =
      { loggedMissingOption := false, queueCreated := true,
        threadStarted := true, boundLoop := false, boundArchive := true,
        uncaught := none, serverUrlUsed := some Meteotemplate.DEFAULT_URL } :=
  ⟨by with_unfolding_all rfl, by with_unfolding_all rfl⟩
